import Mathlib

/-!
Verification of the `odoo-indexer-mcp` repository (files `config.py` and
`server.py`) against its natural-language specification.

The Python sources are shallowly embedded: module-level configuration
loading becomes a pure function from an environment lookup and a
filesystem-existence oracle to `Except`; the FastMCP tool handlers
become pure functions over an explicit server state; the SQLite
aggregation queries of `get_index_status` are modelled semantically as
list aggregation over the rows of the `indexed_items` table. Python
string operations (`str.split`, `str.strip`, `int`, `str.join`) are
embedded as executable functions over `List Char` so that concrete
inputs evaluate inside the kernel.
-/

deriving instance DecidableEq for Except

namespace OdooIndexMCP

/-! ## Python string primitives -/

/-- Python `s.split(sep)` for a one-character separator on the character
list of `s`: splits at every occurrence of the separator, producing one
more part than there are separators (so it never returns an empty list
of parts). -/
def pySplit (sep : Char) : List Char → List (List Char)
  | [] => [[]]
  | c :: rest =>
    match pySplit sep rest with
    | [] => [[c]]
    | p :: ps => if c = sep then [] :: p :: ps else (c :: p) :: ps

/-- Python `s.strip()`: remove leading and trailing whitespace. -/
def pyStrip (l : List Char) : List Char :=
  ((l.dropWhile Char.isWhitespace).reverse.dropWhile Char.isWhitespace).reverse

/-- Value of a non-empty all-digit character list, else `none`. -/
def pyDigits (l : List Char) : Option Nat :=
  if l ≠ [] ∧ l.all Char.isDigit then
    some (l.foldl (fun a c => a * 10 + (c.toNat - 48)) 0)
  else none

/-- Python `int(s)` on a decimal string: optional surrounding whitespace,
optional sign, then digits; raises (here: `none`) on anything else. -/
def pyInt (s : String) : Option Int :=
  match pyStrip s.data with
  | '-' :: rest => (pyDigits rest).map (fun n => -(n : Int))
  | '+' :: rest => (pyDigits rest).map (fun n => (n : Int))
  | l => (pyDigits l).map (fun n => (n : Int))

/-- Python `sep.join(parts)`. -/
def pyJoin (sep : String) : List String → String
  | [] => ""
  | [s] => s
  | s :: rest => s ++ sep ++ pyJoin sep rest

/-! ## Embedding of `config.py`

`config.py` runs at import time:

```python
ODOO_PATH = Path(os.getenv("ODOO_PATH", ""))
if not ODOO_PATH or not ODOO_PATH.exists():
    raise ValueError("ODOO_PATH must be set in environment and must exist. ...")
...
MAX_CONCURRENT_MODULES = int(os.getenv("MAX_CONCURRENT_MODULES", "4"))
MAX_WORKER_PROCESSES = int(os.getenv("MAX_WORKER_PROCESSES", "0"))  # 0 = use CPU count
```

Two pieces of CPython semantics matter and are embedded explicitly:
`pathlib.Path("")` normalizes the empty string to `"."` (so the value
built from an unset variable denotes the current directory), and
`Path.__bool__` is not defined, so `not ODOO_PATH` is `False` for every
path value whatsoever.
-/

/-- CPython `pathlib`: `Path("")` is `PosixPath(".")`; any other string
is kept as given (separator normalization is irrelevant here). -/
def pathOf (s : String) : String := if s = "" then "." else s

/-- `pathlib.Path` objects define no `__bool__`, so `bool(p)` is `True`
for every `p`; hence the guard `not ODOO_PATH` never fires. -/
def pathTruthy (_s : String) : Bool := true

/-- Python `os.getenv(name, default)`. -/
def getenvD (env : String → Option String) (name dflt : String) : String :=
  (env name).getD dflt

/-- The module-level names bound by a successful import of `config.py`. -/
structure Config where
  odooPath : String
  sqliteDbPath : String
  logLevel : String
  maxConcurrentModules : Int
  maxWorkerProcesses : Int
deriving Repr, DecidableEq

/-- Import of `config.py`: `env` is the process environment,
`pathExists` the filesystem oracle behind `Path.exists()`, and
`defaultDbPath` the computed default store path. An uncaught exception
at import time is the `.error` case. Statements run in source order:
the ODOO_PATH guard first, then the optional settings (where `int`
raises on unparsable input). -/
def loadConfig (defaultDbPath : String) (env : String → Option String)
    (pathExists : String → Bool) : Except String Config :=
  let odooPath := pathOf (getenvD env "ODOO_PATH" "")
  if ¬ pathTruthy odooPath ∨ ¬ pathExists odooPath then
    .error "ODOO_PATH must be set in environment and must exist."
  else
    match pyInt (getenvD env "MAX_CONCURRENT_MODULES" "4"),
          pyInt (getenvD env "MAX_WORKER_PROCESSES" "0") with
    | some mcm, some mwp =>
        .ok { odooPath := odooPath
              sqliteDbPath := getenvD env "SQLITE_DB_PATH" defaultDbPath
              logLevel := getenvD env "LOG_LEVEL" "INFO"
              maxConcurrentModules := mcm
              maxWorkerProcesses := mwp }
    | _, _ => .error "invalid literal for int with base 10"

/-! ## Embedding of `server.py`: run-status state and the indexing tasks

`server.py` keeps the process-wide dictionary

```python
_indexing_status = {"is_running": False, "start_time": None,
                    "incremental": None, "modules": None}
```

mutated by the two run bodies (`_run_indexing_task` for on-demand
triggers, the inner `run_indexing` of `_start_background_indexing` for
the boot-time thread). Both set all four keys inside `try` and reset
`is_running` / `start_time` inside `finally`. The call to
`index_odoo_codebase` lives in a module that is not part of the
analysed sources; its only effect on this state is whether it raises,
which is abstracted as a `RunOutcome` (the `except` clause swallows
either way). -/

structure IndexingStatus where
  is_running : Bool
  start_time : Option Nat
  incremental : Option Bool
  modules : Option (List String)
deriving Repr, DecidableEq

/-- The initial value of `_indexing_status`. -/
def initialIndexingStatus : IndexingStatus :=
  { is_running := false, start_time := none, incremental := none, modules := none }

/-- Parameters a run is started with (the arguments handed to
`index_odoo_codebase`). -/
structure RunParams where
  incremental : Bool
  module_filter : Option (List String)
  clear_db : Bool
deriving Repr, DecidableEq

/-- Whether the underlying `index_odoo_codebase` call returns normally
or raises; either way the surrounding `try/except/finally` catches. -/
inductive RunOutcome
  | ok
  | failed (msg : String)
deriving Repr, DecidableEq

/-- Server-process state: the `_indexing_status` global plus the queue
of background tasks created by `asyncio.create_task` that have not run
yet. -/
structure ServerState where
  status : IndexingStatus
  pending : List RunParams
deriving Repr, DecidableEq

/-- Body of `_run_indexing_task` (on-demand trigger path), as the pair
(status while the run is in progress, status after the `finally`
block). All four keys are overwritten at start, so the result does not
depend on the prior status; the `finally` block resets only
`is_running` and `start_time`, whatever the outcome was. -/
def _run_indexing_task (now : Nat) (incremental : Bool)
    (module_filter : Option (List String)) (_clear_db : Bool)
    (_outcome : RunOutcome) : IndexingStatus × IndexingStatus :=
  let during : IndexingStatus :=
    { is_running := true, start_time := some now,
      incremental := some incremental, modules := module_filter }
  (during, { during with is_running := false, start_time := none })

/-- Body of the inner `run_indexing` of `_start_background_indexing`
(boot-time thread path): a full, unfiltered run with
`incremental=False`, `clear_db=False`, same set/clear lifecycle. -/
def run_indexing (now : Nat) (_outcome : RunOutcome) :
    IndexingStatus × IndexingStatus :=
  let during : IndexingStatus :=
    { is_running := true, start_time := some now,
      incremental := some false, modules := none }
  (during, { during with is_running := false, start_time := none })

/-! ## Embedding of the `update_index` tool -/

/-- The module-filter computation at the top of `update_index`:
`module_filter = [m.strip() for m in modules.split(",")] if modules
else None`. `None` and the empty string are falsy; any other string is
split on commas and each name stripped. -/
def splitModules (modules : Option String) : Option (List String) :=
  match modules with
  | none => none
  | some s =>
    if s = "" then none
    else some ((pySplit ',' s.data).map (fun p => String.mk (pyStrip p)))

/-- The dictionary returned by `update_index`: on success
`{"success": True, "status": "started", "message": ...}`, on an
exception inside the handler `{"success": False, "error": ...}`.
Absent keys are `none`. -/
structure UpdateAck where
  success : Bool
  status : Option String
  message : Option String
  error : Option String
deriving Repr, DecidableEq

/-- The acknowledgement message built by `update_index`; the module
list is appended only when the filter is truthy (a non-empty list). -/
def updateIndexMessage (module_filter : Option (List String)) : String :=
  let base := "Index update started in background"
  let base :=
    match module_filter with
    | some (m :: ms) => base ++ " for modules: " ++ pyJoin ", " (m :: ms)
    | _ => base
  base ++ ". Check server logs for progress."

/-- The success acknowledgement of `update_index`. -/
def updateIndexAck (module_filter : Option (List String)) : UpdateAck :=
  { success := true, status := some "started",
    message := some (updateIndexMessage module_filter), error := none }

/-- The `update_index` tool handler. It computes the module filter,
creates the background task (appended to `pending`; `update_index`
itself never awaits it) and returns the acknowledgement. `exc` models
an exception raised inside the `try` block (caught by the `except`
branch); the handler consults **no** part of the current status — in
particular not `is_running`. -/
def update_index (exc : Option String) (st : ServerState)
    (incremental : Bool) (modules : Option String) (clear_db : Bool) :
    UpdateAck × ServerState :=
  match exc with
  | some e =>
      ({ success := false, status := none, message := none,
         error := some ("Failed to start index update: " ++ e) }, st)
  | none =>
      let module_filter := splitModules modules
      (updateIndexAck module_filter,
       { st with pending := st.pending ++ [⟨incremental, module_filter, clear_db⟩] })

/-! ## Embedding of `get_index_status` and `_check_index_exists`

The SQLite queries over the `indexed_items` table are modelled
semantically over the list of its rows: `COUNT(*)` is the list length,
`COUNT(DISTINCT module)` the number of distinct module values, and the
`GROUP BY item_type` query the association list of per-type counts. A
store-level failure (missing or unreadable database) is the `.error`
case of the `db` argument and is caught by the handler. -/

structure DbRow where
  module : String
  item_type : String
deriving Repr, DecidableEq

/-- `SELECT COUNT(*) FROM indexed_items`. -/
def totalItemsQuery (rows : List DbRow) : Nat := rows.length

/-- `SELECT COUNT(DISTINCT module) FROM indexed_items`. -/
def totalModulesQuery (rows : List DbRow) : Nat :=
  (rows.map DbRow.module).dedup.length

/-- `SELECT item_type, COUNT(*) FROM indexed_items GROUP BY item_type`,
as an association list from item type to row count. -/
def countsByTypeQuery (rows : List DbRow) : List (String × Nat) :=
  (rows.map DbRow.item_type).dedup.map
    (fun t => (t, (rows.filter (fun r => r.item_type == t)).length))

/-- The `indexing` sub-object of the status response; `none` marks an
absent key. (When a run is in progress the code also copies the stored
`incremental` value into the response; during any run both entry
points have set it to a boolean, so key-present-with-null cannot
arise.) -/
structure IndexingInfo where
  is_running : Bool
  elapsed_seconds : Option Nat
  incremental : Option Bool
  modules : Option (List String)
deriving Repr, DecidableEq

/-- The successful response shape of `get_index_status`. -/
structure StatusResponse where
  database_path : String
  total_items : Nat
  total_modules : Nat
  counts_by_type : List (String × Nat)
  indexing : IndexingInfo
deriving Repr, DecidableEq

/-- A tool either returns its payload or the structured
`{"error": message}` object built in its `except` branch. -/
inductive StatusResult
  | ok (r : StatusResponse)
  | error (msg : String)
deriving Repr, DecidableEq

/-- The `get_index_status` tool handler. On a store failure the
`except` branch returns the structured error object. When
`is_running` is set, `elapsed_seconds` is computed from `start_time`;
if `start_time` were `None` the subtraction itself would raise a
`TypeError`, also caught by the `except` branch. The `modules` key is
added only when the stored filter is truthy (a non-empty list). -/
def get_index_status (dbPath : String) (db : Except String (List DbRow))
    (st : IndexingStatus) (now : Nat) : StatusResult :=
  match db with
  | .error e => .error ("Failed to get index status: " ++ e)
  | .ok rows =>
    let base : StatusResponse :=
      { database_path := dbPath
        total_items := totalItemsQuery rows
        total_modules := totalModulesQuery rows
        counts_by_type := countsByTypeQuery rows
        indexing := { is_running := st.is_running, elapsed_seconds := none,
                      incremental := none, modules := none } }
    if st.is_running then
      match st.start_time with
      | none => .error "Failed to get index status: unsupported operand type for subtraction"
      | some t0 =>
          .ok { base with
                indexing :=
                  { is_running := true
                    elapsed_seconds := some (now - t0)
                    incremental := st.incremental
                    modules :=
                      match st.modules with
                      | some (m :: ms) => some (m :: ms)
                      | _ => none } }
    else .ok base

/-- `_check_index_exists`: count the indexed items; any exception is
caught and answered with `False`. -/
def _check_index_exists (db : Except String (List DbRow)) : Bool :=
  match db with
  | .ok rows => decide (0 < rows.length)
  | .error _ => false

/-- What `main` decides at startup. -/
inductive StartupAction
  | startBackgroundRun (p : RunParams)
  | noRun
deriving Repr, DecidableEq

/-- The run parameters of the boot-time background run started by
`_start_background_indexing`: full (`incremental=False`), unfiltered,
without clearing the store. -/
def bootRunParams : RunParams :=
  { incremental := false, module_filter := none, clear_db := false }

/-- The startup decision in `main`: if `_check_index_exists` answers
`False`, start the background indexing thread; otherwise do nothing. -/
def mainStartup (db : Except String (List DbRow)) : StartupAction :=
  if _check_index_exists db then .noRun else .startBackgroundRun bootRunParams

/-! ## Embedding of the search tools (Query Service)

The wrapper handlers in `server.py` clamp the page size
(`limit = min(limit, 50)` in `search_odoo_index`, `min(limit, 100)` in
`search_by_attribute` and `search_xml_id`) and delegate to the `tools`
module. The `tools` module itself is not among the analysed sources;
its input validation is modelled from the specification. -/

/-- The entity-kind enumeration of the data model. -/
def knownItemTypes : List String :=
  ["model", "field", "function", "view", "menu", "action",
   "controller_route", "access_right", "record_rule", "scheduled_action",
   "report_template", "module", "xml_id"]

/-- An optional kind filter is valid when absent or a known kind. -/
def itemTypeKnown : Option String → Bool
  | none => true
  | some t => knownItemTypes.contains t

/-- The arguments with which the Index Store search is ultimately
invoked (the observable effect of a validated query). -/
structure StoreQuery where
  pattern : Option String
  item_type : Option String
  module : Option String
  parent_name : Option String
  attribute_filters : List (String × String)
  limit : Int
  offset : Int
deriving Repr, DecidableEq

/-- A query either reaches the store with its final arguments or is
rejected by validation with a structured error message. -/
inductive ToolResult
  | payload (q : StoreQuery)
  | validationError (msg : String)
deriving Repr, DecidableEq

/-- Modelled from the spec: the `tools` module backing
`search_odoo_index` is not under the analysed sources; per the Query
Service contract it "validates external inputs (e.g., pattern is
non-empty, kind is one of the known enum values ...)" before mapping
the call onto the Index Store. -/
def tools_search_odoo_index (query : String)
    (item_type module parent_name : Option String)
    (limit offset : Int) : ToolResult :=
  if query = "" then .validationError "query pattern must be non-empty"
  else if ¬ itemTypeKnown item_type then .validationError "unknown item type"
  else .payload { pattern := some query, item_type := item_type,
                  module := module, parent_name := parent_name,
                  attribute_filters := [], limit := limit, offset := offset }

/-- Modelled from the spec: the `tools` module backing
`search_by_attribute` is not under the analysed sources; per the Query
Service contract the kind must be one of the known enum values, while
unknown attribute keys simply match nothing and are not an error. -/
def tools_search_by_attribute (item_type : String)
    (attribute_filters : List (String × String)) (module : Option String)
    (limit offset : Int) : ToolResult :=
  if ¬ itemTypeKnown (some item_type) then .validationError "unknown item type"
  else .payload { pattern := none, item_type := some item_type,
                  module := module, parent_name := none,
                  attribute_filters := attribute_filters,
                  limit := limit, offset := offset }

/-- Modelled from the spec: the `tools` module backing `search_xml_id`
is not under the analysed sources; per the Query Service contract the
search pattern must be non-empty. -/
def tools_search_xml_id (query : String) (module : Option String)
    (limit offset : Int) : ToolResult :=
  if query = "" then .validationError "query pattern must be non-empty"
  else .payload { pattern := some query, item_type := none,
                  module := module, parent_name := none,
                  attribute_filters := [], limit := limit, offset := offset }

/-- The `search_odoo_index` wrapper in `server.py`:
`limit = min(limit, 50)`, then delegate. -/
def search_odoo_index (query : String)
    (item_type module parent_name : Option String)
    (limit offset : Int) : ToolResult :=
  tools_search_odoo_index query item_type module parent_name
    (min limit 50) offset

/-- The `search_by_attribute` wrapper in `server.py`:
`limit = min(limit, 100)`, then delegate. -/
def search_by_attribute (item_type : String)
    (attribute_filters : List (String × String)) (module : Option String)
    (limit offset : Int) : ToolResult :=
  tools_search_by_attribute item_type attribute_filters module
    (min limit 100) offset

/-- The `search_xml_id` wrapper in `server.py`:
`limit = min(limit, 100)`, then delegate. -/
def search_xml_id (query : String) (module : Option String)
    (limit offset : Int) : ToolResult :=
  tools_search_xml_id query module (min limit 100) offset

/-- Whether a tool answer is a structured (non-empty-message) error
object rather than a success payload. -/
def StatusResult.isStructuredError : StatusResult → Bool
  | .error m => m != ""
  | .ok _ => false

/-- A server state in which an indexing run is currently in the
`Running` state (`is_running` is true). -/
def busyServerState : ServerState :=
  { status := { is_running := true, start_time := some 0,
                incremental := some false, modules := none },
    pending := [] }

/-- A status value as produced at the start of a filtered incremental
run (used to instantiate lifecycle hypotheses concretely). -/
def runningStatusExample : IndexingStatus :=
  { is_running := true, start_time := some 2,
    incremental := some true, modules := some ["sale"] }

/-- Validity, at the Index Store boundary, of the outcome of one query
operation: whenever the call reaches the store (`payload`), the
pattern is non-empty (for the operations that take one), the kind
filter is a known enum value, and the effective limit is at most
`maxLimit`. Rejected calls never reach the store at all. -/
def storeCallValid (maxLimit : Int) (needsPattern : Bool) : ToolResult → Bool
  | .payload q =>
      (!needsPattern || (q.pattern.getD "") != "") &&
      itemTypeKnown q.item_type &&
      decide (q.limit ≤ maxLimit)
  | .validationError _ => true

/-- An environment in which no configuration variable is set at all. -/
def emptyEnv : String → Option String := fun _ => none

/-- A filesystem on which only the current directory exists — in
particular, no real codebase root exists anywhere. -/
def onlyCwdExists : String → Bool := fun p => p == "."

end OdooIndexMCP

open OdooIndexMCP

/-- **C8.** The claim says configuration loading fails whenever the
codebase root path is unset and never proceeds with a missing root. The
code contradicts its own error message ("ODOO_PATH must be set in
environment and must exist"): with ODOO_PATH unset, `os.getenv` yields
the empty string, `Path` normalizes it to the current directory, the
`not ODOO_PATH` guard is always `False`, and the current directory
exists, so no `ValueError` is raised and the import completes with the
current directory as the codebase root (and the documented fallbacks
`MAX_CONCURRENT_MODULES = 4` and `MAX_WORKER_PROCESSES = 0`, where 0
means use the CPU count). -/
theorem loadConfig_unset_root_proceeds :
    loadConfig "odoo_index_mcp/odoo_index.db" emptyEnv onlyCwdExists =
      .ok { odooPath := "."
            sqliteDbPath := "odoo_index_mcp/odoo_index.db"
            logLevel := "INFO"
            maxConcurrentModules := 4
            maxWorkerProcesses := 0 } := by
  decide

/-- **C1.** The claim says a trigger arriving while a run is already in
the `Running` state is rejected rather than starting a second
concurrent run. The handler never consults `is_running`: evaluated on a
state whose status records a run in progress, `update_index` still
answers the success acknowledgement (`success`, status `started`, no
error) and creates a second background run. The spec itself flags this
exclusivity as an invariant the source does not enforce. -/
theorem update_index_accepts_trigger_while_running :
    busyServerState.status.is_running = true ∧
    (update_index none busyServerState true none false).1.success = true ∧
    (update_index none busyServerState true none false).1.status = some "started" ∧
    (update_index none busyServerState true none false).1.error = none ∧
    (update_index none busyServerState true none false).2.pending =
      [{ incremental := true, module_filter := none, clear_db := false }] := by
  exact ⟨rfl, rfl, rfl, rfl, rfl⟩

/-- **C2.** Every externally exposed query operation validates its
inputs before touching the store: whenever a call reaches the Index
Store (a `payload` outcome), the search pattern is non-empty (for the
operations that take one), the kind filter is one of the known enum
values, and the effective limit never exceeds the hard server-side
maximum (50 for `search_odoo_index`, 100 for `search_by_attribute` and
`search_xml_id` — the clamps `min(limit, 50)` / `min(limit, 100)` from
`server.py`; the pattern/kind validation is the spec-modelled `tools`
layer). -/
theorem query_inputs_validated_before_store
    (query it2 q3 : String)
    (item_type module parent_name mod2 mod3 : Option String)
    (filters : List (String × String)) (l1 o1 l2 o2 l3 o3 : Int) :
    storeCallValid 50 true
      (search_odoo_index query item_type module parent_name l1 o1) = true ∧
    storeCallValid 100 false
      (search_by_attribute it2 filters mod2 l2 o2) = true ∧
    storeCallValid 100 true (search_xml_id q3 mod3 l3 o3) = true := by
  refine ⟨?_, ?_, ?_⟩
  · unfold search_odoo_index tools_search_odoo_index
    split_ifs with h1 h2 <;> simp_all [storeCallValid, min_le_right]
  · unfold search_by_attribute tools_search_by_attribute
    split_ifs with h1 <;> simp_all [storeCallValid, min_le_right]
  · unfold search_xml_id tools_search_xml_id
    split_ifs with h1 <;> simp_all [storeCallValid, itemTypeKnown, min_le_right]

/-- **C3.** `update_index` returns immediately with the acknowledgement
built by `updateIndexAck`: the returned object is a pure function of
the `modules` argument (in particular identical for any two server
states, so it can carry no information about the run or its eventual
completion), the handler leaves the run status untouched, and the run
itself is only enqueued as a background task that executes
independently; completion is observable only through the status kept
for `get_index_status`. -/
theorem update_index_ack_immediate (st st2 : ServerState)
    (incremental : Bool) (modules : Option String) (clear_db : Bool) :
    (update_index none st incremental modules clear_db).1 =
      updateIndexAck (splitModules modules) ∧
    (update_index none st incremental modules clear_db).1.status = some "started" ∧
    (update_index none st incremental modules clear_db).1.message.isSome = true ∧
    (update_index none st incremental modules clear_db).1 =
      (update_index none st2 incremental modules clear_db).1 ∧
    (update_index none st incremental modules clear_db).2.status = st.status ∧
    (update_index none st incremental modules clear_db).2.pending =
      st.pending ++ [⟨incremental, splitModules modules, clear_db⟩] := by
  exact ⟨rfl, rfl, rfl, rfl, rfl, rfl⟩

/-- **C4.** Both run bodies — `_run_indexing_task` for on-demand
triggers and the boot-time thread body `run_indexing` — set the
process-wide run-status metadata at run start (`is_running` true, the
start time, the incremental flag and the module filter recorded) and
clear it at run end (`is_running` false, start time null), whatever the
outcome of the underlying indexing call (success or exception). -/
theorem indexing_status_lifecycle (now : Nat) (incremental : Bool)
    (module_filter : Option (List String)) (clear_db : Bool)
    (outcome : RunOutcome) :
    ((_run_indexing_task now incremental module_filter clear_db outcome).1.is_running = true ∧
     (_run_indexing_task now incremental module_filter clear_db outcome).1.start_time = some now ∧
     (_run_indexing_task now incremental module_filter clear_db outcome).1.incremental = some incremental ∧
     (_run_indexing_task now incremental module_filter clear_db outcome).1.modules = module_filter ∧
     (_run_indexing_task now incremental module_filter clear_db outcome).2.is_running = false ∧
     (_run_indexing_task now incremental module_filter clear_db outcome).2.start_time = none) ∧
    ((run_indexing now outcome).1.is_running = true ∧
     (run_indexing now outcome).1.start_time = some now ∧
     (run_indexing now outcome).1.incremental = some false ∧
     (run_indexing now outcome).1.modules = none ∧
     (run_indexing now outcome).2.is_running = false ∧
     (run_indexing now outcome).2.start_time = none) := by
  exact ⟨⟨rfl, rfl, rfl, rfl, rfl, rfl⟩, ⟨rfl, rfl, rfl, rfl, rfl, rfl⟩⟩

/-- Auxiliary: `pySplit` always yields at least one part (one more
part than separators), mirroring Python `str.split`. -/
theorem pySplit_ne_nil (sep : Char) (l : List Char) : pySplit sep l ≠ [] := by
  cases l with
  | nil => simp [pySplit]
  | cons c rest =>
      unfold pySplit
      cases h : pySplit sep rest with
      | nil => simp
      | cons p ps => dsimp only; split <;> simp

/-- Auxiliary: counting one item type over the projected column equals
the length of the row filter used by the GROUP BY model. -/
theorem count_map_eq_length_filter (rows : List DbRow) (t : String) :
    (rows.map DbRow.item_type).count t =
      (rows.filter (fun r => r.item_type == t)).length := by
  induction rows with
  | nil => rfl
  | cons r rs ih =>
      simp only [List.map_cons, List.count_cons, List.filter_cons]
      by_cases h : r.item_type == t
      · simp [h, ih, beq_iff_eq.mp h]
      · simp [h, ih]

/-- Auxiliary: the per-type counts of the GROUP BY query sum to the
total row count, i.e. the groups partition the table. -/
theorem counts_partition (rows : List DbRow) :
    ((countsByTypeQuery rows).map Prod.snd).sum = rows.length := by
  unfold countsByTypeQuery
  rw [List.map_map]
  have h2 : (Prod.snd ∘ fun t => (t, (rows.filter (fun r => r.item_type == t)).length))
      = fun t => ((rows.map DbRow.item_type).count t) := by
    funext t
    simp [count_map_eq_length_filter]
  rw [h2]
  have := List.sum_map_count_dedup_eq_length (rows.map DbRow.item_type)
  simpa using this

/-- **C5.** On a successful store read, `get_index_status` returns an
object with the item/module totals and per-type counts, and an
`indexing` sub-object that always carries `is_running`; when a run is
in progress it additionally carries `elapsed_seconds` and
`incremental` (and `modules` exactly when a non-empty module filter
was recorded), and when no run is in progress those extra keys are
absent. The hypothesis is the run-status lifecycle invariant
established by `indexing_status_lifecycle`: while `is_running` is set,
`start_time` and `incremental` hold values. -/
theorem get_index_status_shape (dbPath : String) (rows : List DbRow)
    (st : IndexingStatus) (now : Nat)
    (hlife : st.is_running = true → st.start_time.isSome ∧ st.incremental.isSome) :
    ∃ r, get_index_status dbPath (.ok rows) st now = .ok r ∧
      r.total_items = totalItemsQuery rows ∧
      r.total_modules = totalModulesQuery rows ∧
      r.counts_by_type = countsByTypeQuery rows ∧
      r.indexing.is_running = st.is_running ∧
      (r.indexing.elapsed_seconds.isSome ↔ st.is_running = true) ∧
      (r.indexing.incremental.isSome ↔ st.is_running = true) ∧
      (r.indexing.modules.isSome ↔
         st.is_running = true ∧ ∃ m ms, st.modules = some (m :: ms)) := by
  rcases st with ⟨run, t, inc, mods⟩
  cases run
  case false =>
    refine ⟨_, rfl, rfl, rfl, rfl, rfl, ?_, ?_, ?_⟩ <;> simp
  case true =>
    obtain ⟨ht, hinc⟩ := hlife rfl
    cases t with
    | none => simp at ht
    | some t0 =>
      cases inc with
      | none => simp at hinc
      | some b =>
        cases mods with
        | none =>
            refine ⟨_, rfl, rfl, rfl, rfl, rfl, ?_, ?_, ?_⟩ <;> simp
        | some l =>
            cases l with
            | nil => refine ⟨_, rfl, rfl, rfl, rfl, rfl, ?_, ?_, ?_⟩ <;> simp
            | cons m ms =>
                refine ⟨_, rfl, rfl, rfl, rfl, rfl, ?_, ?_, ?_⟩ <;> simp

/-- Witness for the C5 theorem at a concrete in-progress run. -/
theorem get_index_status_shape_witness :
    runningStatusExample.is_running = true ∧
    (∃ r, get_index_status "odoo_index.db"
        (.ok [{ module := "sale", item_type := "model" }])
        runningStatusExample 7 = .ok r ∧
      r.total_items = totalItemsQuery [{ module := "sale", item_type := "model" }] ∧
      r.total_modules = totalModulesQuery [{ module := "sale", item_type := "model" }] ∧
      r.counts_by_type = countsByTypeQuery [{ module := "sale", item_type := "model" }] ∧
      r.indexing.is_running = runningStatusExample.is_running ∧
      (r.indexing.elapsed_seconds.isSome ↔ runningStatusExample.is_running = true) ∧
      (r.indexing.incremental.isSome ↔ runningStatusExample.is_running = true) ∧
      (r.indexing.modules.isSome ↔
         runningStatusExample.is_running = true ∧
         ∃ m ms, runningStatusExample.modules = some (m :: ms))) :=
  ⟨by decide,
   get_index_status_shape "odoo_index.db" [{ module := "sale", item_type := "model" }]
     runningStatusExample 7 (by decide)⟩

/-- **C6.** The statistics reported by `get_index_status` are computed
at call time by aggregation over the stored rows alone: the reported
totals and per-type counts are exactly the aggregation queries over
the row list, `total_items` is the row count, `total_modules` the
number of distinct module values, each per-type count is the number of
rows of that type, and the per-type counts sum to `total_items` (the
groups partition the table). No other state enters the computation. -/
theorem get_index_status_aggregation (dbPath : String) (rows : List DbRow)
    (st : IndexingStatus) (now : Nat)
    (hlife : st.is_running = true → st.start_time.isSome) :
    (∃ r, get_index_status dbPath (.ok rows) st now = .ok r ∧
       r.total_items = totalItemsQuery rows ∧
       r.total_modules = totalModulesQuery rows ∧
       r.counts_by_type = countsByTypeQuery rows) ∧
    totalItemsQuery rows = rows.length ∧
    totalModulesQuery rows = (rows.map DbRow.module).dedup.length ∧
    ((countsByTypeQuery rows).map Prod.snd).sum = totalItemsQuery rows ∧
    ∀ t c, (t, c) ∈ countsByTypeQuery rows →
      c = (rows.filter (fun r => r.item_type == t)).length := by
  refine ⟨?_, rfl, rfl, counts_partition rows, ?_⟩
  · rcases st with ⟨run, t, inc, mods⟩
    cases run
    case false => exact ⟨_, rfl, rfl, rfl, rfl⟩
    case true =>
      obtain ht := hlife rfl
      cases t with
      | none => simp at ht
      | some t0 => exact ⟨_, rfl, rfl, rfl, rfl⟩
  · intro t c hm
    simp only [countsByTypeQuery, List.mem_map] at hm
    obtain ⟨x, hx, hpair⟩ := hm
    injection hpair with h1 h2
    subst h1
    exact h2.symm

/-- Witness for the C6 theorem on a concrete two-row table. -/
theorem get_index_status_aggregation_witness :
    (initialIndexingStatus.is_running = true →
       initialIndexingStatus.start_time.isSome) ∧
    ((∃ r, get_index_status "odoo_index.db"
        (.ok [{ module := "sale", item_type := "model" },
              { module := "sale", item_type := "field" }])
        initialIndexingStatus 3 = .ok r ∧
       r.total_items = totalItemsQuery
         [{ module := "sale", item_type := "model" },
          { module := "sale", item_type := "field" }] ∧
       r.total_modules = totalModulesQuery
         [{ module := "sale", item_type := "model" },
          { module := "sale", item_type := "field" }] ∧
       r.counts_by_type = countsByTypeQuery
         [{ module := "sale", item_type := "model" },
          { module := "sale", item_type := "field" }]) ∧
     totalItemsQuery
       [{ module := "sale", item_type := "model" },
        { module := "sale", item_type := "field" }] =
       [{ module := "sale", item_type := "model" },
        ({ module := "sale", item_type := "field" } : DbRow)].length ∧
     totalModulesQuery
       [{ module := "sale", item_type := "model" },
        { module := "sale", item_type := "field" }] =
       ([{ module := "sale", item_type := "model" },
         ({ module := "sale", item_type := "field" } : DbRow)].map
           DbRow.module).dedup.length ∧
     ((countsByTypeQuery
         [{ module := "sale", item_type := "model" },
          { module := "sale", item_type := "field" }]).map Prod.snd).sum =
       totalItemsQuery
         [{ module := "sale", item_type := "model" },
          { module := "sale", item_type := "field" }] ∧
     ∀ t c, (t, c) ∈ countsByTypeQuery
         [{ module := "sale", item_type := "model" },
          { module := "sale", item_type := "field" }] →
       c = ([{ module := "sale", item_type := "model" },
             ({ module := "sale", item_type := "field" } : DbRow)].filter
              (fun r => r.item_type == t)).length) :=
  ⟨by decide,
   get_index_status_aggregation "odoo_index.db"
     [{ module := "sale", item_type := "model" },
      { module := "sale", item_type := "field" }]
     initialIndexingStatus 3 (by decide)⟩

/-- **C7.** The query operations embedded here return either a
successful payload or a structured error object carrying a
human-readable, non-empty message; a store failure surfaces as the
error object (never as an empty success payload): `get_index_status`
on a failing store read answers exactly the structured error, and
`update_index` answers `success = False` with an error message on an
internal exception and a success acknowledgement with a message
otherwise. -/
theorem query_ops_structured_errors (dbPath e exc : String)
    (st : IndexingStatus) (now : Nat) (st2 : ServerState)
    (incremental : Bool) (modules : Option String) (clear_db : Bool) :
    (get_index_status dbPath (.error e) st now).isStructuredError = true ∧
    get_index_status dbPath (.error e) st now =
      .error ("Failed to get index status: " ++ e) ∧
    (update_index (some exc) st2 incremental modules clear_db).1.success = false ∧
    (update_index (some exc) st2 incremental modules clear_db).1.error =
      some ("Failed to start index update: " ++ exc) ∧
    (update_index (some exc) st2 incremental modules clear_db).1.message = none ∧
    (update_index none st2 incremental modules clear_db).1.success = true ∧
    (update_index none st2 incremental modules clear_db).1.message.isSome = true := by
  exact ⟨rfl, rfl, rfl, rfl, rfl, rfl, rfl⟩

/-- **C9.** With a non-empty `modules` string, the run is enqueued with
the module filter equal to the comma-split list of names with
whitespace stripped from each, and the acknowledgement message lists
exactly those names; with `modules` absent or the empty string, the
filter is `None` (an unfiltered run over all modules). -/
theorem update_index_module_filter (s : String) (hs : s ≠ "")
    (st : ServerState) (incremental clear_db : Bool) :
    splitModules (some s) =
      some ((pySplit ',' s.data).map (fun p => String.mk (pyStrip p))) ∧
    (update_index none st incremental (some s) clear_db).2.pending =
      st.pending ++ [⟨incremental,
        some ((pySplit ',' s.data).map (fun p => String.mk (pyStrip p))),
        clear_db⟩] ∧
    (∃ m ms, (pySplit ',' s.data).map (fun p => String.mk (pyStrip p)) = m :: ms ∧
       (update_index none st incremental (some s) clear_db).1.message =
         some ("Index update started in background for modules: " ++
               pyJoin ", " (m :: ms) ++ ". Check server logs for progress.")) ∧
    splitModules none = none ∧
    splitModules (some "") = none ∧
    (update_index none st incremental none clear_db).2.pending =
      st.pending ++ [⟨incremental, none, clear_db⟩] ∧
    (update_index none st incremental (some "") clear_db).2.pending =
      st.pending ++ [⟨incremental, none, clear_db⟩] := by
  have h1 : splitModules (some s) =
      some ((pySplit ',' s.data).map (fun p => String.mk (pyStrip p))) := by
    simp [splitModules, hs]
  have hlit : ("Index update started in background" ++ " for modules: ") =
      "Index update started in background for modules: " := by decide
  refine ⟨h1, ?_, ?_, rfl, rfl, rfl, rfl⟩
  · show st.pending ++ [⟨incremental, splitModules (some s), clear_db⟩] = _
    rw [h1]
  · cases hsplit : (pySplit ',' s.data).map (fun p => String.mk (pyStrip p)) with
    | nil =>
        exact absurd (List.map_eq_nil_iff.mp hsplit) (pySplit_ne_nil ',' s.data)
    | cons m ms =>
        refine ⟨m, ms, rfl, ?_⟩
        show some (updateIndexMessage (splitModules (some s))) = _
        rw [h1, hsplit]
        show some ((("Index update started in background" ++ " for modules: ") ++
          pyJoin ", " (m :: ms)) ++ ". Check server logs for progress.") = _
        rw [hlit]

/-- Witness for the C9 theorem on the concrete input
`modules = "sale, account"` (note the stripped whitespace). -/
theorem update_index_module_filter_witness :
    ("sale, account" : String) ≠ "" ∧
    splitModules (some "sale, account") = some ["sale", "account"] ∧
    (splitModules (some "sale, account") =
      some ((pySplit ',' "sale, account".data).map (fun p => String.mk (pyStrip p))) ∧
    (update_index none { status := initialIndexingStatus, pending := [] }
        true (some "sale, account") false).2.pending =
      [] ++ [⟨true,
        some ((pySplit ',' "sale, account".data).map (fun p => String.mk (pyStrip p))),
        false⟩] ∧
    (∃ m ms, (pySplit ',' "sale, account".data).map
        (fun p => String.mk (pyStrip p)) = m :: ms ∧
       (update_index none { status := initialIndexingStatus, pending := [] }
           true (some "sale, account") false).1.message =
         some ("Index update started in background for modules: " ++
               pyJoin ", " (m :: ms) ++ ". Check server logs for progress.")) ∧
    splitModules none = none ∧
    splitModules (some "") = none ∧
    (update_index none { status := initialIndexingStatus, pending := [] }
        true none false).2.pending = [] ++ [⟨true, none, false⟩] ∧
    (update_index none { status := initialIndexingStatus, pending := [] }
        true (some "") false).2.pending = [] ++ [⟨true, none, false⟩]) :=
  ⟨by decide, by decide,
   update_index_module_filter "sale, account" (by decide)
     { status := initialIndexingStatus, pending := [] } true false⟩

/-- **C10.** When counting the indexed items fails with any exception,
`_check_index_exists` answers `false`, and `main` then starts exactly
the same full, non-incremental, unfiltered background run as it does
for a genuinely empty index. -/
theorem startup_reindexes_on_check_failure (e : String) :
    _check_index_exists (.error e) = false ∧
    mainStartup (.error e) = .startBackgroundRun bootRunParams ∧
    mainStartup (.error e) = mainStartup (.ok []) ∧
    bootRunParams =
      { incremental := false, module_filter := none, clear_db := false } := by
  exact ⟨rfl, rfl, rfl, rfl⟩
